import Mathlib

/-!
Verification of the WHD (Wi-Fi Host Driver) station connection lifecycle,
shallowly embedded from `src/WHD/COMPONENT_WIFI5/src/whd_wifi_api.c` and
`src/WHD/COMPONENT_WIFI6/src/whd_chip.c`.

Machine integers are modelled as `Nat` (the join-status word is a `uint32_t`
bitset; all bit masks used here are below `2^32`).  Firmware status / reason /
event codes are only ever compared for equality in the source, so they are
modelled as inductive enumerations.  Fallible sub-operations whose bodies live
outside the translated files (bus transfers, buffer pool, RTOS primitives) are
modelled as explicit inputs carrying their result.
-/

set_option maxRecDepth 8192

namespace WHD

/-- `WHD_INTERFACE_MAX`.  Modelled from the spec: the driver owns "an array of
up to `MAX_INTERFACES` interface records" (the numeric value lives in
`whd_int.h`, which is not part of the translated sources; only the comparison
`bsscfgidx >= WHD_INTERFACE_MAX` matters to the claims). -/
def WHD_INTERFACE_MAX : Nat := 3

/-- `#define JOIN_ASSOCIATED (uint32_t)(1 << 0)` -/
def JOIN_ASSOCIATED : Nat := 1

/-- `#define JOIN_AUTHENTICATED (uint32_t)(1 << 1)` -/
def JOIN_AUTHENTICATED : Nat := 2

/-- `#define JOIN_LINK_READY (uint32_t)(1 << 2)` -/
def JOIN_LINK_READY : Nat := 4

/-- `#define JOIN_SECURITY_COMPLETE (uint32_t)(1 << 3)` -/
def JOIN_SECURITY_COMPLETE : Nat := 8

/-- `#define JOIN_SSID_SET (uint32_t)(1 << 4)` -/
def JOIN_SSID_SET : Nat := 16

/-- `#define JOIN_NO_NETWORKS (uint32_t)(1 << 5)` -/
def JOIN_NO_NETWORKS : Nat := 32

/-- `#define JOIN_EAPOL_KEY_M1_TIMEOUT (uint32_t)(1 << 6)` -/
def JOIN_EAPOL_KEY_M1_TIMEOUT : Nat := 64

/-- `#define JOIN_EAPOL_KEY_M3_TIMEOUT (uint32_t)(1 << 7)` -/
def JOIN_EAPOL_KEY_M3_TIMEOUT : Nat := 128

/-- `#define JOIN_EAPOL_KEY_G1_TIMEOUT (uint32_t)(1 << 8)` -/
def JOIN_EAPOL_KEY_G1_TIMEOUT : Nat := 256

/-- `#define JOIN_EAPOL_KEY_FAILURE (uint32_t)(1 << 9)` -/
def JOIN_EAPOL_KEY_FAILURE : Nat := 512

/-- `#define JOIN_SECURITY_FLAGS_MASK (JOIN_SECURITY_COMPLETE |
JOIN_EAPOL_KEY_M1_TIMEOUT | JOIN_EAPOL_KEY_M3_TIMEOUT |
JOIN_EAPOL_KEY_G1_TIMEOUT | JOIN_EAPOL_KEY_FAILURE)` -/
def JOIN_SECURITY_FLAGS_MASK : Nat :=
  JOIN_SECURITY_COMPLETE ||| JOIN_EAPOL_KEY_M1_TIMEOUT ||| JOIN_EAPOL_KEY_M3_TIMEOUT |||
    JOIN_EAPOL_KEY_G1_TIMEOUT ||| JOIN_EAPOL_KEY_FAILURE

/-- `#define WLC_EVENT_MSG_LINK (0x01)` -/
def WLC_EVENT_MSG_LINK : Nat := 1

/-- `#define DEFAULT_JOIN_ATTEMPT_TIMEOUT (9000)` (milliseconds). -/
def DEFAULT_JOIN_ATTEMPT_TIMEOUT : Nat := 9000

/-- `uint32_t` complement-and-mask: `x & ~m` on a 32-bit word
(`0xFFFFFFFF ^^^ m` is the 32-bit complement of `m` for `m < 2^32`). -/
def clear32 (x m : Nat) : Nat := x &&& (0xFFFFFFFF ^^^ m)

/-- `whd_result_t` values that occur in the translated code paths.  The source
only compares these codes for equality, so an enumeration is a faithful
model. -/
inductive WhdResult where
  | success
  | badarg
  | unsupported
  | wlanUnsupported
  | wlanBadSsidLen
  | wlanNomem
  | networkNotFound
  | eapolKeyM1Timeout
  | eapolKeyM3Timeout
  | eapolKeyG1Timeout
  | eapolKeyFailure
  | notAuthenticated
  | joinInProgress
  | notKeyed
  | invalidJoinStatus
  | unknownInterface
  | interfaceNotUp
  | sdioBusUpFail
  | rtosTimeout
  | semaphoreError
  | ioctlFail
  deriving DecidableEq

/-- The `switch (whd_driver->internal_info.whd_join_status[ifp->bsscfgidx])`
of `whd_wifi_check_join_status` (whd_wifi_api.c:1929-1965), rendered as an
equality chain on the status word `js` (C `case` labels are computed
constants, source order preserved; fall-through pairs share a result). -/
def whd_wifi_join_status_switch (js : Nat) : WhdResult :=
  if js = JOIN_NO_NETWORKS then .networkNotFound
  else if js = JOIN_AUTHENTICATED ||| JOIN_LINK_READY ||| JOIN_EAPOL_KEY_M1_TIMEOUT then
    .eapolKeyM1Timeout
  else if js = JOIN_AUTHENTICATED ||| JOIN_LINK_READY ||| JOIN_EAPOL_KEY_M3_TIMEOUT then
    .eapolKeyM3Timeout
  else if js = JOIN_AUTHENTICATED ||| JOIN_LINK_READY ||| JOIN_SSID_SET |||
      JOIN_EAPOL_KEY_M3_TIMEOUT then
    .eapolKeyM3Timeout
  else if js = JOIN_AUTHENTICATED ||| JOIN_LINK_READY ||| JOIN_EAPOL_KEY_G1_TIMEOUT then
    .eapolKeyG1Timeout
  else if js = JOIN_AUTHENTICATED ||| JOIN_LINK_READY ||| JOIN_SSID_SET |||
      JOIN_EAPOL_KEY_G1_TIMEOUT then
    .eapolKeyG1Timeout
  else if js = JOIN_AUTHENTICATED ||| JOIN_LINK_READY ||| JOIN_EAPOL_KEY_FAILURE then
    .eapolKeyFailure
  else if js = JOIN_AUTHENTICATED ||| JOIN_LINK_READY ||| JOIN_SSID_SET |||
      JOIN_EAPOL_KEY_FAILURE then
    .eapolKeyFailure
  else if js = JOIN_AUTHENTICATED ||| JOIN_LINK_READY ||| JOIN_SSID_SET |||
      JOIN_SECURITY_COMPLETE then
    .success
  else if js = 0 then .notAuthenticated
  else if js = JOIN_SECURITY_COMPLETE then .notAuthenticated
  else if js = JOIN_AUTHENTICATED ||| JOIN_LINK_READY ||| JOIN_SECURITY_COMPLETE then
    .joinInProgress
  else if js = JOIN_AUTHENTICATED ||| JOIN_LINK_READY then .notKeyed
  else if js = JOIN_AUTHENTICATED ||| JOIN_LINK_READY ||| JOIN_SSID_SET then .notKeyed
  else .invalidJoinStatus

/-- `whd_wifi_check_join_status` (whd_wifi_api.c:1920-1966): reject an
out-of-range bss index, then classify the interface join-status word `js`
through the `switch`. -/
def whd_wifi_check_join_status (bsscfgidx : Nat) (js : Nat) : WhdResult :=
  if bsscfgidx ≥ WHD_INTERFACE_MAX then .invalidJoinStatus
  else whd_wifi_join_status_switch js

/-- Event types handled by `whd_wifi_join_events_handler`; every other
`WLC_E_*` code falls through the big case list without touching the join
status, collapsed here into `otherEvent`. -/
inductive WlcEventType where
  | pskSup
  | setSsid
  | link
  | deauthInd
  | disassocInd
  | auth
  | csaCompleteInd
  | otherEvent
  deriving DecidableEq

/-- Firmware status codes compared against in the translated handlers
(`WLC_E_STATUS_SUCCESS`, `WLC_E_STATUS_NO_NETWORKS`,
`WLC_E_STATUS_UNSOLICITED`, `WLC_E_STATUS_NEWSCAN`, `WLC_E_STATUS_NEWASSOC`,
`WLC_E_STATUS_ABORT`, `WLC_E_STATUS_PARTIAL` as `midScan`, and the supplicant
states `WLC_SUP_KEYED`, `WLC_SUP_KEYXCHANGE_WAIT_M1/M3/G1`).  Distinct codes
on the wire, distinct constructors here. -/
inductive WlcStatus where
  | eSuccess
  | eNoNetworks
  | eUnsolicited
  | eNewScan
  | eNewAssoc
  | eAbort
  | midScan
  | supKeyed
  | supWaitM1
  | supWaitM3
  | supWaitG1
  | otherStatus
  deriving DecidableEq

/-- Reason codes compared against in the join events handler
(`WLC_E_SUP_WPA_PSK_TMO` and everything else). -/
inductive WlcReason where
  | pskTmo
  | otherReason
  deriving DecidableEq

/-- The fields of `whd_event_header_t` the join events handler reads. -/
structure EventHeader where
  eventType : WlcEventType
  status : WlcStatus
  reason : WlcReason
  flags : Nat
  bsscfgidx : Nat
  deriving DecidableEq

/-- The join-status mutation performed by one invocation of
`whd_wifi_join_events_handler` (whd_wifi_api.c:1195-1460) on the status word
`js` of interface `ev.bsscfgidx`, together with the `join_attempt_complete`
flag as set by the `switch` (before the final `is_ready_to_transceive`
check). -/
def joinEventsUpdate (ev : EventHeader) (js : Nat) : Nat × Bool :=
  if ev.bsscfgidx ≥ WHD_INTERFACE_MAX then (js, false)
  else
    match ev.eventType with
    | .pskSup =>
      if js &&& JOIN_LINK_READY ≠ 0 then
        if ev.status = .supKeyed then
          ((clear32 js JOIN_SECURITY_FLAGS_MASK) ||| JOIN_SECURITY_COMPLETE, false)
        else if ev.status = .supWaitM1 ∧ ev.reason = .pskTmo then
          (js ||| JOIN_EAPOL_KEY_M1_TIMEOUT, true)
        else if ev.status = .supWaitM3 ∧ ev.reason = .pskTmo then
          (js ||| JOIN_EAPOL_KEY_M3_TIMEOUT, true)
        else if ev.status = .supWaitG1 ∧ ev.reason = .pskTmo then
          (js ||| JOIN_EAPOL_KEY_G1_TIMEOUT, true)
        else
          (js ||| JOIN_EAPOL_KEY_FAILURE, true)
      else (js, false)
    | .setSsid =>
      if ev.status = .eSuccess then (js ||| JOIN_SSID_SET, false)
      else if ev.status = .eNoNetworks then (js ||| JOIN_NO_NETWORKS, false)
      else (js, true)
    | .link =>
      if ev.flags &&& WLC_EVENT_MSG_LINK ≠ 0 then (js ||| JOIN_LINK_READY, false)
      else (clear32 js JOIN_LINK_READY, false)
    | .deauthInd => (clear32 js (JOIN_AUTHENTICATED ||| JOIN_LINK_READY), false)
    | .disassocInd => (clear32 js (JOIN_AUTHENTICATED ||| JOIN_LINK_READY), false)
    | .auth =>
      if ev.status = .eSuccess then (js ||| JOIN_AUTHENTICATED, false)
      else if ev.status = .eUnsolicited then (js, false)
      else (js, true)
    | .csaCompleteInd => (js, false)
    | .otherEvent => (js, false)

/-- Fold a sequence of join events through the handler, tracking only the
join-status word (the semaphore signalling does not feed back into the
status). -/
def joinEventsRun (evs : List EventHeader) (js : Nat) : Nat :=
  evs.foldl (fun s e => (joinEventsUpdate e s).1) js

/-- The §4.5 transition table rows as the claim enumerates them: the nine
bitset values NoNetworks; Auth∧Link∧M1; Auth∧Link∧M3; Auth∧Link∧G1;
Auth∧Link∧EapolFailure; Auth∧Link∧SsidSet∧SecurityComplete; Auth∧Link;
SecurityComplete; empty.  This definition follows the spec text, for
comparison against the classifier translated from the source. -/
def specNineCombos : List Nat :=
  [JOIN_NO_NETWORKS,
   JOIN_AUTHENTICATED ||| JOIN_LINK_READY ||| JOIN_EAPOL_KEY_M1_TIMEOUT,
   JOIN_AUTHENTICATED ||| JOIN_LINK_READY ||| JOIN_EAPOL_KEY_M3_TIMEOUT,
   JOIN_AUTHENTICATED ||| JOIN_LINK_READY ||| JOIN_EAPOL_KEY_G1_TIMEOUT,
   JOIN_AUTHENTICATED ||| JOIN_LINK_READY ||| JOIN_EAPOL_KEY_FAILURE,
   JOIN_AUTHENTICATED ||| JOIN_LINK_READY ||| JOIN_SSID_SET ||| JOIN_SECURITY_COMPLETE,
   JOIN_AUTHENTICATED ||| JOIN_LINK_READY,
   JOIN_SECURITY_COMPLETE,
   0]

/-- The fourteen bitset values the `switch` in `whd_wifi_check_join_status`
actually names (source order). -/
def handledJoinCombos : List Nat :=
  [JOIN_NO_NETWORKS,
   JOIN_AUTHENTICATED ||| JOIN_LINK_READY ||| JOIN_EAPOL_KEY_M1_TIMEOUT,
   JOIN_AUTHENTICATED ||| JOIN_LINK_READY ||| JOIN_EAPOL_KEY_M3_TIMEOUT,
   JOIN_AUTHENTICATED ||| JOIN_LINK_READY ||| JOIN_SSID_SET ||| JOIN_EAPOL_KEY_M3_TIMEOUT,
   JOIN_AUTHENTICATED ||| JOIN_LINK_READY ||| JOIN_EAPOL_KEY_G1_TIMEOUT,
   JOIN_AUTHENTICATED ||| JOIN_LINK_READY ||| JOIN_SSID_SET ||| JOIN_EAPOL_KEY_G1_TIMEOUT,
   JOIN_AUTHENTICATED ||| JOIN_LINK_READY ||| JOIN_EAPOL_KEY_FAILURE,
   JOIN_AUTHENTICATED ||| JOIN_LINK_READY ||| JOIN_SSID_SET ||| JOIN_EAPOL_KEY_FAILURE,
   JOIN_AUTHENTICATED ||| JOIN_LINK_READY ||| JOIN_SSID_SET ||| JOIN_SECURITY_COMPLETE,
   0,
   JOIN_SECURITY_COMPLETE,
   JOIN_AUTHENTICATED ||| JOIN_LINK_READY ||| JOIN_SECURITY_COMPLETE,
   JOIN_AUTHENTICATED ||| JOIN_LINK_READY,
   JOIN_AUTHENTICATED ||| JOIN_LINK_READY ||| JOIN_SSID_SET]

/-- Status values delivered to the user scan callback
(`whd_scan_status_t`). -/
inductive ScanCbStatus where
  | completedSuccessfully
  | incomplete
  | aborted
  deriving DecidableEq

/-- The observable inputs of one `whd_wifi_scan_events_handler` invocation
(whd_wifi_api.c:2266-2665): the event status plus the outcome of each check
the handler performs on the escan record.  `versionOk` is the
`WL_BSS_INFO_VERSION` comparison, `bssCountIsOne` the `bss_count == 1` check,
`ssidAndIeBoundsOk` the SSID-length / ie-offset overflow check, `onChannel`
the `WL_BSS_FLAGS_RSSI_ONCHANNEL` flag, `ieSectionOk` the ie-section length
validation, and `resultPtrConsumed` records whether the user callback set
`whd_scan_result_ptr` to NULL. -/
structure ScanEvent where
  status : WlcStatus
  versionOk : Bool
  bssCountIsOne : Bool
  ssidAndIeBoundsOk : Bool
  onChannel : Bool
  ieSectionOk : Bool
  resultPtrConsumed : Bool
  deriving DecidableEq

/-- The handler state the claims observe: whether
`internal_info.scan_result_callback` is non-NULL and whether the scan event
handler entry is still registered. -/
structure ScanHandlerState where
  callbackRegistered : Bool
  handlerRegistered : Bool
  deriving DecidableEq

/-- Result of one handler invocation: the sequence of user-callback
invocations (by status) and the state afterwards. -/
structure ScanHandlerOut where
  calls : List ScanCbStatus
  callbackRegistered : Bool
  handlerRegistered : Bool
  deriving DecidableEq

/-- `whd_wifi_scan_events_handler` (whd_wifi_api.c:2266-2665), reduced to its
callback-invocation and registration behaviour.  Mirrors the source order:
NULL-callback guard, Success, NewScan/NewAssoc/Abort, non-Partial guard, then
the record checks, the off-channel drop, the SCAN_INCOMPLETE invocation, and
the NULL-result-pointer abort path. -/
def whd_wifi_scan_events_handler (ev : ScanEvent) (st : ScanHandlerState) : ScanHandlerOut :=
  if st.callbackRegistered = false then
    { calls := [], callbackRegistered := st.callbackRegistered,
      handlerRegistered := st.handlerRegistered }
  else if ev.status = .eSuccess then
    { calls := [.completedSuccessfully], callbackRegistered := false,
      handlerRegistered := false }
  else if ev.status = .eNewScan ∨ ev.status = .eNewAssoc ∨ ev.status = .eAbort then
    { calls := [.aborted], callbackRegistered := false, handlerRegistered := false }
  else if ev.status ≠ .midScan then
    { calls := [], callbackRegistered := st.callbackRegistered,
      handlerRegistered := st.handlerRegistered }
  else if ev.versionOk = false then
    { calls := [], callbackRegistered := st.callbackRegistered,
      handlerRegistered := st.handlerRegistered }
  else if ev.bssCountIsOne = false then
    { calls := [], callbackRegistered := st.callbackRegistered,
      handlerRegistered := st.handlerRegistered }
  else if ev.ssidAndIeBoundsOk = false then
    { calls := [], callbackRegistered := st.callbackRegistered,
      handlerRegistered := st.handlerRegistered }
  else if ev.onChannel = false then
    { calls := [], callbackRegistered := st.callbackRegistered,
      handlerRegistered := st.handlerRegistered }
  else if ev.ieSectionOk = false then
    { calls := [], callbackRegistered := st.callbackRegistered,
      handlerRegistered := st.handlerRegistered }
  else if ev.resultPtrConsumed then
    { calls := [.incomplete, .aborted], callbackRegistered := false,
      handlerRegistered := false }
  else
    { calls := [.incomplete], callbackRegistered := st.callbackRegistered,
      handlerRegistered := st.handlerRegistered }

/-- `whd_bss_type_t` values compared against in `whd_wifi_join_specific`. -/
inductive BssType where
  | infrastructure
  | adhoc
  | mesh
  | anyBss
  | unknownBss
  deriving DecidableEq

/-- `whd_802_11_band_t` plus an out-of-range value (the source treats any
band other than the three known ones as invalid). -/
inductive Band where
  | band2_4
  | band5
  | band6
  | invalidBand
  deriving DecidableEq

/-- `SSID_NAME_SIZE`.  Modelled from the spec: "out-of-range lengths (SSID 0
or >32)" (the numeric define lives in `whd_types.h`, outside the translated
sources). -/
def SSID_NAME_SIZE : Nat := 32

/-- The fields of the `whd_scan_result_t` target that
`whd_wifi_join_specific` validates.  `bssidIsNull` is `NULL_MAC(BSSID)`
(all six octets zero) and `bssidIsBroadcast` is `BROADCAST_ID(BSSID)`
(all six octets 0xFF); both macros live outside the translated sources and
are modelled from the spec wording ("all-zero" / "broadcast" BSSID). -/
structure ApTarget where
  bssType : BssType
  channel : Nat
  band : Band
  bssidIsNull : Bool
  bssidIsBroadcast : Bool
  ssidLen : Nat
  deriving DecidableEq

/-- Outcomes of the fallible sub-operations `whd_wifi_join_specific`
performs after parameter validation, supplied as inputs (their bodies are
RTOS, buffer-pool, or command-channel code outside the translated file).
`activeJoinInitCmds` counts the control commands `whd_wifi_active_join_init`
/ `whd_wifi_prepare_join` send when they run. -/
structure JoinSpecEnv where
  initSemaResult : WhdResult
  activeJoinInitResult : WhdResult
  activeJoinInitCmds : Nat
  setChanspecResult : WhdResult
  joinIovarBufferOk : Bool
  joinIovarResult : WhdResult
  ssidIoctlBufferOk : Bool
  setSsidIoctlResult : WhdResult
  waitForCompleteResult : WhdResult
  mpduIovarResult : WhdResult
  chipId : Nat
  deriving DecidableEq

/-- Observable outcome of a `whd_wifi_join_specific` call: the returned
code, the net change of the driver wake-lock counter
(`WHD_WLAN_KEEP_AWAKE` / `WHD_WLAN_LET_SLEEP` are modelled from the spec
§4.4 as +1 / -1 on the refcount; their macro bodies live outside the
translated sources), and the number of control commands sent to the
firmware. -/
structure JoinSpecOut where
  ret : WhdResult
  wakeDelta : Int
  fwCmds : Nat
  deriving DecidableEq

/-- `whd_wifi_join_specific` (whd_wifi_api.c:1968-2131).  Source order:
`WHD_WLAN_KEEP_AWAKE` first, then the MESH check, chanspec assembly (a zero
channel skips the band check; an unknown band is `WHD_BADARG`), the NULL /
broadcast BSSID checks, the SSID-length check, the join semaphore creation,
`whd_wifi_active_join_init`, the `join` IOVAR with `WLC_SET_SSID` IOCTL
fallback, `whd_wifi_join_wait_for_complete`, the 0x4373/55560 ampdu tweak,
and `whd_wifi_active_join_deinit`.  Every `CHECK_RETURN` /
`CHECK_IOCTL_BUFFER` early return is reproduced. -/
def whd_wifi_join_specific (ap : ApTarget) (env : JoinSpecEnv) : JoinSpecOut :=
  -- WHD_WLAN_KEEP_AWAKE(whd_driver): wake-lock +1
  if ap.bssType = .mesh then { ret := .unsupported, wakeDelta := 1, fwCmds := 0 }
  else if ap.channel ≠ 0 ∧ ap.band = .invalidBand then
    { ret := .badarg, wakeDelta := 1, fwCmds := 0 }
  else if ap.bssidIsNull then { ret := .badarg, wakeDelta := 1, fwCmds := 0 }
  else if ap.bssidIsBroadcast then { ret := .badarg, wakeDelta := 1, fwCmds := 0 }
  else if ap.ssidLen = 0 ∨ ap.ssidLen > SSID_NAME_SIZE then
    { ret := .wlanBadSsidLen, wakeDelta := 1, fwCmds := 0 }
  else if env.initSemaResult ≠ .success then
    { ret := env.initSemaResult, wakeDelta := 1, fwCmds := 0 }
  else if env.activeJoinInitResult ≠ .success then
    -- active join init failed: logged, falls through to deinit
    { ret := env.activeJoinInitResult, wakeDelta := 0, fwCmds := env.activeJoinInitCmds }
  else if ap.bssType = .adhoc ∧ env.setChanspecResult ≠ .success then
    -- CHECK_RETURN(whd_wifi_set_chanspec): early return, deinit skipped
    { ret := env.setChanspecResult, wakeDelta := 1, fwCmds := env.activeJoinInitCmds + 1 }
  else if env.joinIovarBufferOk = false then
    -- CHECK_IOCTL_BUFFER: early return, deinit skipped
    { ret := .wlanNomem, wakeDelta := 1,
      fwCmds := env.activeJoinInitCmds + (if ap.bssType = .adhoc then 1 else 0) }
  else
    let preCmds := env.activeJoinInitCmds + (if ap.bssType = .adhoc then 1 else 0)
    -- result = whd_proto_set_iovar(ifp, "join")
    let afterJoin : WhdResult × Nat :=
      if env.joinIovarResult = .wlanUnsupported then
        -- fallback: WLC_SET_SSID IOCTL (buffer first)
        if env.ssidIoctlBufferOk = false then (.wlanNomem, preCmds + 1)
        else (env.setSsidIoctlResult, preCmds + 2)
      else (env.joinIovarResult, preCmds + 1)
    if env.joinIovarResult = .wlanUnsupported ∧ env.ssidIoctlBufferOk = false then
      -- CHECK_IOCTL_BUFFER on the fallback buffer: early return, deinit skipped
      { ret := .wlanNomem, wakeDelta := 1, fwCmds := afterJoin.2 }
    else if afterJoin.1 = .success then
      if env.waitForCompleteResult ≠ .success then
        -- CHECK_RETURN(whd_wifi_join_wait_for_complete): early return, deinit skipped
        { ret := env.waitForCompleteResult, wakeDelta := 1, fwCmds := afterJoin.2 }
      else if (env.chipId = 0x4373 ∨ env.chipId = 55560) ∧ env.mpduIovarResult ≠ .success then
        -- CHECK_RETURN on the ampdu IOVAR: early return, deinit skipped
        { ret := env.mpduIovarResult, wakeDelta := 1, fwCmds := afterJoin.2 + 1 }
      else
        -- whd_wifi_active_join_deinit: wake-lock -1; CHECK_RETURN(result) passes
        { ret := .success, wakeDelta := 0,
          fwCmds := afterJoin.2 + (if env.chipId = 0x4373 ∨ env.chipId = 55560 then 1 else 0) }
    else
      -- join command failed: logged, deinit runs, CHECK_RETURN(result) returns it
      { ret := afterJoin.1, wakeDelta := 0, fwCmds := afterJoin.2 }

/-- The wait loop of `whd_wifi_join_wait_for_complete`
(whd_wifi_api.c:1895-1909).  Each element of `obs` is one loop iteration:
the elapsed time `current_time - start_time` observed at its end and the
`whd_wifi_is_ready_to_transceive` result read after the semaphore wait.  The
loop exits with the current result on success or once the elapsed time
reaches `DEFAULT_JOIN_ATTEMPT_TIMEOUT` (or when the trace ends). -/
def joinWaitLoop : List (Nat × WhdResult) → WhdResult → WhdResult
  | [], r => r
  | (t, r) :: rest, _ =>
    if r = .success then r
    else if t ≥ DEFAULT_JOIN_ATTEMPT_TIMEOUT then r
    else joinWaitLoop rest r

/-- `whd_wifi_join_wait_for_complete` (whd_wifi_api.c:1886-1918): run the
wait loop, and when its final status is not success, invoke `whd_wifi_leave`
(whose result is `leaveResult`; `CHECK_RETURN` propagates a failing leave)
before returning.  The boolean records whether leave was invoked. -/
def whd_wifi_join_wait_for_complete (obs : List (Nat × WhdResult))
    (leaveResult : WhdResult) : Bool × WhdResult :=
  let r := joinWaitLoop obs .rtosTimeout
  if r ≠ .success then
    (true, if leaveResult ≠ .success then leaveResult else r)
  else (false, r)

/-- Inputs of `whd_wifi_leave` (whd_wifi_api.c:2189-2252): the interface bss
index, whether a join event handler entry is registered, the result of the
`WLC_DISASSOC` IOCTL, the chip id (the 43022/43907/43909/54907/43012 family
additionally sends a `bsscfg:sup_wpa` IOVAR), whether that IOVAR buffer
allocation succeeds, and the current active-join mutex / semaphore state.
`whd_wifi_deregister_event_handler` lives outside the translated sources and
is modelled from the spec: deregistration of a registered (or already
unregistered) entry succeeds (§8 invariant 5). -/
structure LeaveEnv where
  bsscfgidx : Nat
  joinHandlerRegistered : Bool
  disassocResult : WhdResult
  chipId : Nat
  supWpaBufferOk : Bool
  mutexInitted : Bool
  semaphorePresent : Bool
  deriving DecidableEq

/-- Observable outcome of `whd_wifi_leave`: return code, whether the
interface join status was cleared to 0, whether the role was set to
`WHD_INVALID_ROLE`, and the handler / mutex / semaphore state afterwards. -/
structure LeaveOut where
  ret : WhdResult
  joinStatusCleared : Bool
  roleInvalid : Bool
  joinHandlerRegistered : Bool
  mutexInitted : Bool
  semaphorePresent : Bool
  deriving DecidableEq

/-- `whd_wifi_leave` (whd_wifi_api.c:2189-2252).  Source order: bss-index
range check, join-handler deregistration, `WLC_DISASSOC` (result only
logged), the `bsscfg:sup_wpa` teardown on the five-chip family (its
`CHECK_IOCTL_BUFFER` is the only remaining early return; the IOVAR result
itself is discarded), then clear join status, invalidate the role, and
deinitialize the active-join mutex and semaphore when present. -/
def whd_wifi_leave (env : LeaveEnv) : LeaveOut :=
  if env.bsscfgidx ≥ WHD_INTERFACE_MAX then
    { ret := .badarg, joinStatusCleared := false, roleInvalid := false,
      joinHandlerRegistered := env.joinHandlerRegistered,
      mutexInitted := env.mutexInitted, semaphorePresent := env.semaphorePresent }
  else if (env.chipId = 43022 ∨ env.chipId = 43907 ∨ env.chipId = 43909 ∨
      env.chipId = 54907 ∨ env.chipId = 43012) ∧ env.supWpaBufferOk = false then
    { ret := .wlanNomem, joinStatusCleared := false, roleInvalid := false,
      joinHandlerRegistered := false,
      mutexInitted := env.mutexInitted, semaphorePresent := env.semaphorePresent }
  else
    { ret := .success, joinStatusCleared := true, roleInvalid := true,
      joinHandlerRegistered := false, mutexInitted := false, semaphorePresent := false }

/-- `#define KSO_WAIT_MS (1)` (whd_chip.c:57). -/
def KSO_WAIT_MS : Nat := 1

/-- `#define MAX_KSO_ATTEMPTS (64)` (whd_chip.c:59). -/
def MAX_KSO_ATTEMPTS : Nat := 64

/-- `SBSDIO_SLPCSR_KEEP_WL_KSO`.  Modelled from the spec: the KSO bit of the
sleep CSR ("write `KEEP_KSO`"; the register-layout header is outside the
translated sources). -/
def SBSDIO_SLPCSR_KEEP_WL_KSO : Nat := 1

/-- `SBSDIO_SLPCSR_WL_DEVON`.  Modelled from the spec: the device-on status
bit of the sleep CSR ("poll the sleep-CSR until `KEEP_KSO | DEVON` is
observed"). -/
def SBSDIO_SLPCSR_WL_DEVON : Nat := 2

/-- The readback environment of the KSO poll loop: the n-th
`whd_bus_read_register_value` of the sleep CSR yields (success, value). -/
structure KsoEnv where
  wlanChipId : Nat
  reads : Nat → Bool × Nat

/-- The retry loop of `whd_kso_enable` (whd_chip.c:1384-1403): up to `fuel`
attempts, each reading the sleep CSR once and breaking when the masked value
matches, the read succeeded, and the value is not 0xFF; otherwise delay
`KSO_WAIT_MS`, rewrite, and retry.  Returns the result and the total number
of readback polls performed (starting from `polls`). -/
def ksoLoop (reads : Nat → Bool × Nat) (compareValue bmask : Nat) :
    Nat → Nat → WhdResult × Nat
  | 0, polls => (.sdioBusUpFail, polls)
  | fuel + 1, polls =>
    let rv := reads polls
    if rv.2 &&& bmask = compareValue ∧ rv.1 = true ∧ rv.2 ≠ 0xFF then
      (.success, polls + 1)
    else ksoLoop reads compareValue bmask fuel (polls + 1)

/-- `whd_kso_enable` (whd_chip.c:1299-1414) with `CP_OVER_SDIO` undefined.
The 43430/43439/43340/43342 family performs its two writes and then always
enters the poll loop — on release (`enable = false`) with compare value 0
and bit mask `KEEP_WL_KSO`.  Every other chip writes the value and, on
release, returns success immediately without polling; on enable it performs
the second write and polls for `KEEP_WL_KSO | DEVON`.  Returns the result
and the number of readback polls. -/
def whd_kso_enable (env : KsoEnv) (enable : Bool) : WhdResult × Nat :=
  if env.wlanChipId = 43430 ∨ env.wlanChipId = 43439 ∨ env.wlanChipId = 43340 ∨
      env.wlanChipId = 43342 then
    if enable then
      ksoLoop env.reads (SBSDIO_SLPCSR_KEEP_WL_KSO ||| SBSDIO_SLPCSR_WL_DEVON)
        (SBSDIO_SLPCSR_KEEP_WL_KSO ||| SBSDIO_SLPCSR_WL_DEVON) MAX_KSO_ATTEMPTS 0
    else
      ksoLoop env.reads 0 SBSDIO_SLPCSR_KEEP_WL_KSO MAX_KSO_ATTEMPTS 0
  else
    if enable = false then (.success, 0)
    else
      ksoLoop env.reads (SBSDIO_SLPCSR_KEEP_WL_KSO ||| SBSDIO_SLPCSR_WL_DEVON)
        (SBSDIO_SLPCSR_KEEP_WL_KSO ||| SBSDIO_SLPCSR_WL_DEVON) MAX_KSO_ATTEMPTS 0

/-- Inputs of `whd_allow_wlan_bus_to_sleep` (whd_chip.c:848-894): chip id,
whether the bus is currently up, the `save_restore_enable` flag, whether a
BT device interrupt callback is installed, the sleep-CSR readbacks, and the
results of the legacy clock-CSR write / bus sleep paths. -/
structure SleepEnv where
  wlanChipId : Nat
  busIsUp : Bool
  saveRestoreEnable : Bool
  btDevWithCb : Bool
  reads : Nat → Bool × Nat
  busSleepResult : WhdResult
  clockCsrWriteResult : WhdResult

/-- Observable outcome of `whd_allow_wlan_bus_to_sleep`: return code,
whether `whd_bus_set_state(whd_driver, WHD_FALSE)` ran (the bus marked
not-up), whether a zero KSO value was written to the sleep CSR, and how many
sleep-CSR readback polls were performed. -/
structure SleepOut where
  ret : WhdResult
  busMarkedDown : Bool
  ksoReleaseWritten : Bool
  ksoPolls : Nat
  deriving DecidableEq

/-- `whd_allow_wlan_bus_to_sleep` (whd_chip.c:848-894).  For 4334/43362 the
HT-clock request is cleared through the chip-clock CSR; otherwise, when the
bus is up, the bus state is set to not-up first, then either the legacy
clock-CSR write (save/restore disabled), a no-op when a BT callback holds
the bus, or `whd_kso_enable(whd_driver, WHD_FALSE)`. -/
def whd_allow_wlan_bus_to_sleep (env : SleepEnv) : SleepOut :=
  if env.wlanChipId = 4334 ∨ env.wlanChipId = 43362 then
    if env.busIsUp then
      { ret := if env.clockCsrWriteResult ≠ .success then env.clockCsrWriteResult
               else env.busSleepResult,
        busMarkedDown := true, ksoReleaseWritten := false, ksoPolls := 0 }
    else { ret := .success, busMarkedDown := false, ksoReleaseWritten := false, ksoPolls := 0 }
  else if env.busIsUp then
    if env.saveRestoreEnable = false then
      { ret := env.clockCsrWriteResult, busMarkedDown := true,
        ksoReleaseWritten := false, ksoPolls := 0 }
    else if env.btDevWithCb then
      { ret := .success, busMarkedDown := true, ksoReleaseWritten := false, ksoPolls := 0 }
    else
      let kso := whd_kso_enable { wlanChipId := env.wlanChipId, reads := env.reads } false
      { ret := kso.1, busMarkedDown := true, ksoReleaseWritten := true, ksoPolls := kso.2 }
  else { ret := .success, busMarkedDown := false, ksoReleaseWritten := false, ksoPolls := 0 }

end WHD

namespace WHD

/-- Evaluation of the status `switch` with every bit-or of constants reduced
to its numeral, for use in proofs that case on the status word. -/
theorem whd_wifi_join_status_switch_eval (js : Nat) :
    whd_wifi_join_status_switch js =
      if js = 32 then .networkNotFound
      else if js = 70 then .eapolKeyM1Timeout
      else if js = 134 then .eapolKeyM3Timeout
      else if js = 150 then .eapolKeyM3Timeout
      else if js = 262 then .eapolKeyG1Timeout
      else if js = 278 then .eapolKeyG1Timeout
      else if js = 518 then .eapolKeyFailure
      else if js = 534 then .eapolKeyFailure
      else if js = 30 then .success
      else if js = 0 then .notAuthenticated
      else if js = 8 then .notAuthenticated
      else if js = 14 then .joinInProgress
      else if js = 6 then .notKeyed
      else if js = 22 then .notKeyed
      else .invalidJoinStatus := rfl

/-- The fourteen handled bitset values, reduced to numerals. -/
theorem handledJoinCombos_eval :
    handledJoinCombos = [32, 70, 134, 150, 262, 278, 518, 534, 30, 0, 8, 14, 6, 22] := rfl

/-- Every `case` label of the status `switch` is below 1024 (ten status
bits), so any larger word falls to the `default` arm. -/
theorem join_status_switch_high (js : Nat) (h : 1024 ≤ js) :
    whd_wifi_join_status_switch js = .invalidJoinStatus := by
  rw [whd_wifi_join_status_switch_eval]
  repeat rw [if_neg (show ¬_ by omega)]

/-- The status `switch` answers success exactly on the word 30
(Authenticated∪LinkReady∪SsidSet∪SecurityComplete). -/
theorem join_status_switch_success_iff (js : Nat) :
    whd_wifi_join_status_switch js = .success ↔ js = 30 := by
  by_cases hb : js < 1024
  · exact (by decide :
      ∀ y, y < 1024 → (whd_wifi_join_status_switch y = .success ↔ y = 30)) js hb
  · rw [join_status_switch_high js (by omega)]
    exact iff_of_false (by simp) (by omega)

/-- C1: for an interface whose bss index is in range, the join-status
classifier answers success exactly on the bitset
{Authenticated, LinkReady, SsidSet, SecurityComplete}; every other value of
the bitset yields a non-success result. -/
theorem check_join_status_success_iff (idx js : Nat) (h : idx < WHD_INTERFACE_MAX) :
    whd_wifi_check_join_status idx js = .success ↔
      js = JOIN_AUTHENTICATED ||| JOIN_LINK_READY ||| JOIN_SSID_SET |||
        JOIN_SECURITY_COMPLETE := by
  have h3 : idx < 3 := h
  rw [show (JOIN_AUTHENTICATED ||| JOIN_LINK_READY ||| JOIN_SSID_SET |||
      JOIN_SECURITY_COMPLETE : Nat) = 30 from rfl]
  unfold whd_wifi_check_join_status
  rw [if_neg (by omega)]
  exact join_status_switch_success_iff js

/-- Witness for `check_join_status_success_iff` at index 0 and the terminal
success bitset value 30. -/
theorem check_join_status_success_iff_witness :
    0 < WHD_INTERFACE_MAX ∧
      (whd_wifi_check_join_status 0 30 = .success ↔
        30 = JOIN_AUTHENTICATED ||| JOIN_LINK_READY ||| JOIN_SSID_SET |||
          JOIN_SECURITY_COMPLETE) :=
  ⟨by decide, check_join_status_success_iff 0 30 (by decide)⟩

/-- C2: from a cleared join status, the event sequence SetSsid(success),
Link(link-up), Auth(success), PskSup(status = KEYXCHANGE_WAIT_M3,
reason = PSK_TMO) drives the interface bitset to a value that the classifier
maps to the terminal failure WHD_EAPOL_KEY_PACKET_M3_TIMEOUT. -/
theorem join_m3_timeout_scenario :
    whd_wifi_check_join_status 0
      (joinEventsRun
        [{ eventType := .setSsid, status := .eSuccess, reason := .otherReason,
           flags := 0, bsscfgidx := 0 },
         { eventType := .link, status := .eSuccess, reason := .otherReason,
           flags := WLC_EVENT_MSG_LINK, bsscfgidx := 0 },
         { eventType := .auth, status := .eSuccess, reason := .otherReason,
           flags := 0, bsscfgidx := 0 },
         { eventType := .pskSup, status := .supWaitM3, reason := .pskTmo,
           flags := 0, bsscfgidx := 0 }] 0) = .eapolKeyM3Timeout := by
  decide

/-- C3 counterexample: the bitset Authenticated∪LinkReady∪SecurityComplete
(value 14) is none of the nine combinations the claim lists, yet the
classifier returns WHD_JOIN_IN_PROGRESS for it, not InvalidJoinStatus. -/
theorem check_join_status_nine_combos_false :
    (JOIN_AUTHENTICATED ||| JOIN_LINK_READY ||| JOIN_SECURITY_COMPLETE) ∉ specNineCombos ∧
      whd_wifi_check_join_status 0
          (JOIN_AUTHENTICATED ||| JOIN_LINK_READY ||| JOIN_SECURITY_COMPLETE) ≠
        .invalidJoinStatus := by
  decide

/-- C3 amended: the classifier is total, and for an in-range interface it
returns InvalidJoinStatus exactly on the bitset values outside the fourteen
combinations named in the source `switch` (the claim's nine, plus the
SsidSet-variants of the M3/G1/failure rows, Auth∧Link∧SsidSet, and
Auth∧Link∧SecurityComplete). -/
theorem check_join_status_default_invalid (idx js : Nat) (h : idx < WHD_INTERFACE_MAX)
    (hjs : js ∉ handledJoinCombos) :
    whd_wifi_check_join_status idx js = .invalidJoinStatus := by
  have h3 : idx < 3 := h
  unfold whd_wifi_check_join_status
  rw [if_neg (by omega)]
  by_cases hb : js < 1024
  · have hd := (by decide :
      ∀ y, y < 1024 → y ∈ handledJoinCombos ∨
        whd_wifi_join_status_switch y = .invalidJoinStatus) js hb
    exact hd.resolve_left hjs
  · exact join_status_switch_high js (by omega)

/-- Witness for `check_join_status_default_invalid` at index 0 and bitset 7
(Associated∪Authenticated∪LinkReady), which is not a handled combination. -/
theorem check_join_status_default_invalid_witness :
    (0 < WHD_INTERFACE_MAX ∧ 7 ∉ handledJoinCombos) ∧
      whd_wifi_check_join_status 0 7 = .invalidJoinStatus :=
  ⟨⟨by decide, by decide⟩, check_join_status_default_invalid 0 7 (by decide) (by decide)⟩

/-- C9: a PskSup (supplicant) event arriving while the LinkReady bit is not
set in the interface join status leaves the join-status word completely
unchanged (and does not mark the attempt complete). -/
theorem psk_sup_ignored_without_link (ev : EventHeader) (js : Nat)
    (hty : ev.eventType = .pskSup) (hlink : js &&& JOIN_LINK_READY = 0) :
    joinEventsUpdate ev js = (js, false) := by
  obtain ⟨ty, st, rs, fl, idx⟩ := ev
  simp only at hty
  subst hty
  simp only [joinEventsUpdate]
  split_ifs with hidx hl <;> first | rfl | exact absurd hlink hl

/-- Witness for `psk_sup_ignored_without_link`: a supplicant M3-timeout event
on interface 0 with join status 2 (Authenticated only, LinkReady clear). -/
theorem psk_sup_ignored_without_link_witness :
    (({ eventType := .pskSup, status := .supWaitM3, reason := .pskTmo, flags := 0,
        bsscfgidx := 0 } : EventHeader).eventType = .pskSup ∧
      2 &&& JOIN_LINK_READY = 0) ∧
      joinEventsUpdate
        { eventType := .pskSup, status := .supWaitM3, reason := .pskTmo, flags := 0,
          bsscfgidx := 0 } 2 = (2, false) :=
  ⟨⟨rfl, by decide⟩,
    psk_sup_ignored_without_link
      { eventType := .pskSup, status := .supWaitM3, reason := .pskTmo, flags := 0,
        bsscfgidx := 0 } 2 rfl (by decide)⟩

/-- Poll-count bound and exhaustion behaviour of the KSO retry loop: it
performs at most `fuel` readbacks beyond `start`, and it reports the bus-up
failure exactly when all `fuel` attempts were consumed. -/
theorem ksoLoop_poll_bound (reads : Nat → Bool × Nat) (cv bm : Nat) :
    ∀ fuel start : Nat,
      (ksoLoop reads cv bm fuel start).2 ≤ start + fuel ∧
      ((ksoLoop reads cv bm fuel start).1 = .sdioBusUpFail →
        (ksoLoop reads cv bm fuel start).2 = start + fuel) := by
  intro fuel
  induction fuel with
  | zero => intro start; exact ⟨Nat.le_refl _, fun _ => rfl⟩
  | succ n ih =>
    intro start
    simp only [ksoLoop]
    split_ifs with hmatch
    · exact ⟨by omega, fun h => by cases h⟩
    · refine ⟨?_, ?_⟩
      · have := (ih (start + 1)).1
        omega
      · intro h
        have := (ih (start + 1)).2 h
        omega

/-- C4: `whd_wifi_join_specific` takes the wake lock before validating its
target; on the early-return paths (unsupported MESH bss type here) the
wake-lock count stays one above its prior value, while a fully successful
attempt restores it.  This evaluates the translated code at the failing
input of the claim. -/
theorem join_specific_mesh_wake_leak :
    whd_wifi_join_specific
        { bssType := .mesh, channel := 1, band := .band2_4, bssidIsNull := false,
          bssidIsBroadcast := false, ssidLen := 4 }
        { initSemaResult := .success, activeJoinInitResult := .success,
          activeJoinInitCmds := 5, setChanspecResult := .success,
          joinIovarBufferOk := true, joinIovarResult := .success,
          ssidIoctlBufferOk := true, setSsidIoctlResult := .success,
          waitForCompleteResult := .success, mpduIovarResult := .success,
          chipId := 43012 } =
      { ret := .unsupported, wakeDelta := 1, fwCmds := 0 } ∧
    whd_wifi_join_specific
        { bssType := .infrastructure, channel := 1, band := .band2_4,
          bssidIsNull := false, bssidIsBroadcast := false, ssidLen := 4 }
        { initSemaResult := .success, activeJoinInitResult := .success,
          activeJoinInitCmds := 5, setChanspecResult := .success,
          joinIovarBufferOk := true, joinIovarResult := .success,
          ssidIoctlBufferOk := true, setSsidIoctlResult := .success,
          waitForCompleteResult := .success, mpduIovarResult := .success,
          chipId := 43012 } =
      { ret := .success, wakeDelta := 0, fwCmds := 6 } ∧
    (1 : Int) ≠ 0 := by
  decide

/-- C5: whenever the wait loop of `whd_wifi_join_wait_for_complete` finishes
with the interface not in the terminal success state (semaphore timeouts and
the 9000 ms budget expiring included), `whd_wifi_leave` is invoked and the
call returns a non-success code. -/
theorem join_wait_leave_on_failure (obs : List (Nat × WhdResult)) (lr : WhdResult)
    (h : joinWaitLoop obs .rtosTimeout ≠ .success) :
    (whd_wifi_join_wait_for_complete obs lr).1 = true ∧
    (whd_wifi_join_wait_for_complete obs lr).2 ≠ .success := by
  unfold whd_wifi_join_wait_for_complete
  rw [if_pos h]
  refine ⟨rfl, ?_⟩
  split_ifs with h2
  · exact h2
  · exact h

/-- Witness for `join_wait_leave_on_failure`: a single iteration that
observes NOT_KEYED with the 9000 ms budget already elapsed, with leave
succeeding. -/
theorem join_wait_leave_on_failure_witness :
    joinWaitLoop [(9000, .notKeyed)] .rtosTimeout ≠ .success ∧
    ((whd_wifi_join_wait_for_complete [(9000, .notKeyed)] .success).1 = true ∧
      (whd_wifi_join_wait_for_complete [(9000, .notKeyed)] .success).2 ≠ .success) :=
  ⟨by decide, join_wait_leave_on_failure [(9000, .notKeyed)] .success (by decide)⟩

/-- C6: with a scan callback registered, a Success event invokes the
callback once with SCAN_COMPLETED_SUCCESSFULLY and deregisters the handler;
NewScan / NewAssoc / Abort invoke it with SCAN_ABORTED and deregister; a
Partial event emits at most one SCAN_INCOMPLETE and none when the record is
off-channel or fails a validation check; every other status leaves the
callback uninvoked and the registration unchanged. -/
theorem scan_events_handler_dispatch (ev : ScanEvent) (st : ScanHandlerState)
    (hcb : st.callbackRegistered = true) :
    (ev.status = .eSuccess →
      whd_wifi_scan_events_handler ev st =
        { calls := [.completedSuccessfully], callbackRegistered := false,
          handlerRegistered := false }) ∧
    ((ev.status = .eNewScan ∨ ev.status = .eNewAssoc ∨ ev.status = .eAbort) →
      whd_wifi_scan_events_handler ev st =
        { calls := [.aborted], callbackRegistered := false,
          handlerRegistered := false }) ∧
    (ev.status = .midScan →
      (whd_wifi_scan_events_handler ev st).calls.count .incomplete ≤ 1 ∧
      ((ev.onChannel = false ∨ ev.versionOk = false ∨ ev.bssCountIsOne = false ∨
          ev.ssidAndIeBoundsOk = false ∨ ev.ieSectionOk = false) →
        (whd_wifi_scan_events_handler ev st).calls = [])) ∧
    ((ev.status ≠ .eSuccess ∧ ev.status ≠ .eNewScan ∧ ev.status ≠ .eNewAssoc ∧
        ev.status ≠ .eAbort ∧ ev.status ≠ .midScan) →
      whd_wifi_scan_events_handler ev st =
        { calls := [], callbackRegistered := st.callbackRegistered,
          handlerRegistered := st.handlerRegistered }) := by
  obtain ⟨status, v, b, sb, oc, ie, pc⟩ := ev
  obtain ⟨cb, hr⟩ := st
  simp only at hcb
  subst hcb
  cases status <;>
    first
      | (simp [whd_wifi_scan_events_handler]; done)
      | (cases v <;> cases b <;> cases sb <;> cases oc <;> cases ie <;> cases pc <;>
          cases hr <;> decide)

/-- Witness for `scan_events_handler_dispatch`: a Success event against a
registered callback. -/
theorem scan_events_handler_dispatch_witness :
    ({ callbackRegistered := true, handlerRegistered := true } :
        ScanHandlerState).callbackRegistered = true ∧
    (({ status := .eSuccess, versionOk := true, bssCountIsOne := true,
        ssidAndIeBoundsOk := true, onChannel := true, ieSectionOk := true,
        resultPtrConsumed := false } : ScanEvent).status = .eSuccess →
      whd_wifi_scan_events_handler
          { status := .eSuccess, versionOk := true, bssCountIsOne := true,
            ssidAndIeBoundsOk := true, onChannel := true, ieSectionOk := true,
            resultPtrConsumed := false }
          { callbackRegistered := true, handlerRegistered := true } =
        { calls := [.completedSuccessfully], callbackRegistered := false,
          handlerRegistered := false }) :=
  ⟨rfl,
    (scan_events_handler_dispatch
      { status := .eSuccess, versionOk := true, bssCountIsOne := true,
        ssidAndIeBoundsOk := true, onChannel := true, ieSectionOk := true,
        resultPtrConsumed := false }
      { callbackRegistered := true, handlerRegistered := true } rfl).1⟩

/-- C7 counterexample: a join-specific target with a zero-length SSID (valid
band and BSSID) is rejected before any firmware command, but with
WHD_WLAN_BADSSIDLEN, which is a different code from WHD_BADARG. -/
theorem join_specific_ssidlen_not_badarg :
    whd_wifi_join_specific
        { bssType := .infrastructure, channel := 0, band := .band2_4,
          bssidIsNull := false, bssidIsBroadcast := false, ssidLen := 0 }
        { initSemaResult := .success, activeJoinInitResult := .success,
          activeJoinInitCmds := 5, setChanspecResult := .success,
          joinIovarBufferOk := true, joinIovarResult := .success,
          ssidIoctlBufferOk := true, setSsidIoctlResult := .success,
          waitForCompleteResult := .success, mpduIovarResult := .success,
          chipId := 43012 } =
      { ret := .wlanBadSsidLen, wakeDelta := 1, fwCmds := 0 } ∧
    WhdResult.wlanBadSsidLen ≠ WhdResult.badarg := by
  decide

/-- C7 amended: for every non-MESH target, `whd_wifi_join_specific` rejects
an all-zero or broadcast BSSID with WHD_BADARG (channel 0 with an all-zero
BSSID in particular), and a non-zero channel with an unknown band likewise
with WHD_BADARG; an SSID of length 0 or above 32 is rejected with
WHD_WLAN_BADSSIDLEN; in every one of these cases no control command has been
sent to the firmware. -/
theorem join_specific_param_validation (ap : ApTarget) (env : JoinSpecEnv)
    (hmesh : ap.bssType ≠ .mesh) :
    ((ap.bssidIsNull = true ∨ ap.bssidIsBroadcast = true) →
      (whd_wifi_join_specific ap env).ret = .badarg ∧
      (whd_wifi_join_specific ap env).fwCmds = 0) ∧
    ((ap.channel ≠ 0 ∧ ap.band = .invalidBand) →
      (whd_wifi_join_specific ap env).ret = .badarg ∧
      (whd_wifi_join_specific ap env).fwCmds = 0) ∧
    ((ap.bssidIsNull = false ∧ ap.bssidIsBroadcast = false ∧
        (ap.channel = 0 ∨ ap.band ≠ .invalidBand) ∧
        (ap.ssidLen = 0 ∨ ap.ssidLen > SSID_NAME_SIZE)) →
      (whd_wifi_join_specific ap env).ret = .wlanBadSsidLen ∧
      (whd_wifi_join_specific ap env).fwCmds = 0) := by
  unfold whd_wifi_join_specific
  rw [if_neg hmesh]
  refine ⟨?_, ?_, ?_⟩
  · intro hbssid
    by_cases hband : ap.channel ≠ 0 ∧ ap.band = .invalidBand
    · rw [if_pos hband]; exact ⟨rfl, rfl⟩
    · rw [if_neg hband]
      by_cases hnull : ap.bssidIsNull = true
      · rw [if_pos hnull]; exact ⟨rfl, rfl⟩
      · rw [if_neg hnull]
        have hbc : ap.bssidIsBroadcast = true := hbssid.resolve_left hnull
        rw [if_pos hbc]; exact ⟨rfl, rfl⟩
  · intro hband
    rw [if_pos hband]; exact ⟨rfl, rfl⟩
  · rintro ⟨hnull, hbc, hband, hssid⟩
    have hnotband : ¬(ap.channel ≠ 0 ∧ ap.band = .invalidBand) := by
      rcases hband with h | h
      · intro hc; exact hc.1 h
      · intro hc; exact h hc.2
    rw [if_neg hnotband, if_neg (by simp [hnull]), if_neg (by simp [hbc]),
      if_pos hssid]
    exact ⟨rfl, rfl⟩

/-- Witness for `join_specific_param_validation`: the S6 target itself — an
infrastructure AP with channel 0 and an all-zero BSSID. -/
theorem join_specific_param_validation_witness :
    ({ bssType := .infrastructure, channel := 0, band := .band2_4, bssidIsNull := true,
       bssidIsBroadcast := false, ssidLen := 4 } : ApTarget).bssType ≠ BssType.mesh ∧
    ((whd_wifi_join_specific
        { bssType := .infrastructure, channel := 0, band := .band2_4, bssidIsNull := true,
          bssidIsBroadcast := false, ssidLen := 4 }
        { initSemaResult := .success, activeJoinInitResult := .success,
          activeJoinInitCmds := 5, setChanspecResult := .success,
          joinIovarBufferOk := true, joinIovarResult := .success,
          ssidIoctlBufferOk := true, setSsidIoctlResult := .success,
          waitForCompleteResult := .success, mpduIovarResult := .success,
          chipId := 43012 }).ret = .badarg ∧
      (whd_wifi_join_specific
        { bssType := .infrastructure, channel := 0, band := .band2_4, bssidIsNull := true,
          bssidIsBroadcast := false, ssidLen := 4 }
        { initSemaResult := .success, activeJoinInitResult := .success,
          activeJoinInitCmds := 5, setChanspecResult := .success,
          joinIovarBufferOk := true, joinIovarResult := .success,
          ssidIoctlBufferOk := true, setSsidIoctlResult := .success,
          waitForCompleteResult := .success, mpduIovarResult := .success,
          chipId := 43012 }).fwCmds = 0) :=
  ⟨by decide,
    (join_specific_param_validation
        { bssType := .infrastructure, channel := 0, band := .band2_4, bssidIsNull := true,
          bssidIsBroadcast := false, ssidLen := 4 }
        { initSemaResult := .success, activeJoinInitResult := .success,
          activeJoinInitCmds := 5, setChanspecResult := .success,
          joinIovarBufferOk := true, joinIovarResult := .success,
          ssidIoctlBufferOk := true, setSsidIoctlResult := .success,
          waitForCompleteResult := .success, mpduIovarResult := .success,
          chipId := 43012 } (by decide)).1 (Or.inl rfl)⟩

/-- C8 counterexample: chip 43430 is save/restore (KSO) capable, yet on the
release direction `whd_allow_wlan_bus_to_sleep` enters the readback poll
loop (64 polls here, with the CSR reading back the KSO bit still set),
contradicting the claim that the release returns without polling for every
KSO-capable chip. -/
theorem kso_release_polls_on_erratum_chip :
    (whd_allow_wlan_bus_to_sleep
        { wlanChipId := 43430, busIsUp := true, saveRestoreEnable := true,
          btDevWithCb := false, reads := fun _ => (true, 1),
          busSleepResult := .success, clockCsrWriteResult := .success }).ksoPolls = 64 ∧
    (64 : Nat) ≠ 0 := by
  decide

/-- C8 amended: for save/restore-enabled chips outside the
43430/43439/43340/43342 family, the release direction writes the zero KSO
value and returns success without any readback poll, with the bus marked
not-up first; the 43430-family release also polls.  In the enable direction
the poll loop performs at most MAX_KSO_ATTEMPTS = 64 readbacks (one per
KSO_WAIT_MS = 1 ms retry) and reports the bus-up failure exactly on
exhaustion. -/
theorem kso_release_and_enable_contract :
    (∀ env : KsoEnv,
      env.wlanChipId ≠ 43430 → env.wlanChipId ≠ 43439 → env.wlanChipId ≠ 43340 →
      env.wlanChipId ≠ 43342 → whd_kso_enable env false = (.success, 0)) ∧
    (∀ env : SleepEnv,
      env.busIsUp = true → env.saveRestoreEnable = true → env.btDevWithCb = false →
      env.wlanChipId ≠ 4334 → env.wlanChipId ≠ 43362 →
      (whd_allow_wlan_bus_to_sleep env).busMarkedDown = true ∧
      (whd_allow_wlan_bus_to_sleep env).ksoReleaseWritten = true ∧
      (env.wlanChipId ≠ 43430 → env.wlanChipId ≠ 43439 → env.wlanChipId ≠ 43340 →
        env.wlanChipId ≠ 43342 →
        (whd_allow_wlan_bus_to_sleep env).ksoPolls = 0 ∧
        (whd_allow_wlan_bus_to_sleep env).ret = .success)) ∧
    (∀ env : KsoEnv,
      (whd_kso_enable env true).2 ≤ MAX_KSO_ATTEMPTS ∧
      ((whd_kso_enable env true).1 = .sdioBusUpFail →
        (whd_kso_enable env true).2 = MAX_KSO_ATTEMPTS)) := by
  have hrel : ∀ env : KsoEnv,
      env.wlanChipId ≠ 43430 → env.wlanChipId ≠ 43439 → env.wlanChipId ≠ 43340 →
      env.wlanChipId ≠ 43342 → whd_kso_enable env false = (.success, 0) := by
    intro env h1 h2 h3 h4
    unfold whd_kso_enable
    rw [if_neg (by simp [h1, h2, h3, h4])]
    rfl
  refine ⟨hrel, ?_, ?_⟩
  · intro env hup hsr hbt h1 h2
    unfold whd_allow_wlan_bus_to_sleep
    rw [if_neg (by simp [h1, h2]), if_pos hup, if_neg (by simp [hsr]),
      if_neg (by simp [hbt])]
    refine ⟨rfl, rfl, ?_⟩
    intro h3 h4 h5 h6
    have hk := hrel { wlanChipId := env.wlanChipId, reads := env.reads } h3 h4 h5 h6
    simp [hk]
  · intro env
    have heq : whd_kso_enable env true =
        ksoLoop env.reads (SBSDIO_SLPCSR_KEEP_WL_KSO ||| SBSDIO_SLPCSR_WL_DEVON)
          (SBSDIO_SLPCSR_KEEP_WL_KSO ||| SBSDIO_SLPCSR_WL_DEVON) MAX_KSO_ATTEMPTS 0 := by
      unfold whd_kso_enable
      split_ifs <;> simp_all
    rw [heq]
    have h := ksoLoop_poll_bound env.reads
      (SBSDIO_SLPCSR_KEEP_WL_KSO ||| SBSDIO_SLPCSR_WL_DEVON)
      (SBSDIO_SLPCSR_KEEP_WL_KSO ||| SBSDIO_SLPCSR_WL_DEVON) MAX_KSO_ATTEMPTS 0
    simpa using h

/-- Witness for `kso_release_and_enable_contract`: the no-poll release on
chip 43012 (save/restore capable, outside the erratum family). -/
theorem kso_release_and_enable_contract_witness :
    ((43012 : Nat) ≠ 43430 ∧ (43012 : Nat) ≠ 43439 ∧ (43012 : Nat) ≠ 43340 ∧
      (43012 : Nat) ≠ 43342) ∧
    whd_kso_enable { wlanChipId := 43012, reads := fun _ => (true, 1) } false =
      (.success, 0) :=
  ⟨⟨by decide, by decide, by decide, by decide⟩,
    kso_release_and_enable_contract.1 { wlanChipId := 43012, reads := fun _ => (true, 1) }
      (by decide) (by decide) (by decide) (by decide)⟩

/-- C10: on a valid interface, when the `bsscfg:sup_wpa` teardown buffer is
available, `whd_wifi_leave` returns success whatever the `WLC_DISASSOC`
result was, clears the join status, invalidates the role, leaves the join
event handler deregistered, and tears down the active-join mutex and
semaphore. -/
theorem leave_ignores_disassoc_failure (env : LeaveEnv)
    (hidx : env.bsscfgidx < WHD_INTERFACE_MAX) (hbuf : env.supWpaBufferOk = true) :
    whd_wifi_leave env =
      { ret := .success, joinStatusCleared := true, roleInvalid := true,
        joinHandlerRegistered := false, mutexInitted := false,
        semaphorePresent := false } := by
  have h3 : env.bsscfgidx < 3 := hidx
  unfold whd_wifi_leave
  rw [if_neg (by omega), if_neg (by simp [hbuf])]

/-- Witness for `leave_ignores_disassoc_failure`: interface 0 on chip 43012
with a failing WLC_DISASSOC and both synchronization objects live. -/
theorem leave_ignores_disassoc_failure_witness :
    ((0 : Nat) < WHD_INTERFACE_MAX ∧
      ({ bsscfgidx := 0, joinHandlerRegistered := true, disassocResult := .ioctlFail,
         chipId := 43012, supWpaBufferOk := true, mutexInitted := true,
         semaphorePresent := true } : LeaveEnv).supWpaBufferOk = true) ∧
    whd_wifi_leave
        { bsscfgidx := 0, joinHandlerRegistered := true, disassocResult := .ioctlFail,
          chipId := 43012, supWpaBufferOk := true, mutexInitted := true,
          semaphorePresent := true } =
      { ret := .success, joinStatusCleared := true, roleInvalid := true,
        joinHandlerRegistered := false, mutexInitted := false,
        semaphorePresent := false } :=
  ⟨⟨by decide, rfl⟩,
    leave_ignores_disassoc_failure
      { bsscfgidx := 0, joinHandlerRegistered := true, disassocResult := .ioctlFail,
        chipId := 43012, supWpaBufferOk := true, mutexInitted := true,
        semaphorePresent := true } (by decide) rfl⟩

end WHD
